import Mathlib

/-!
Verification of the allowance/carryover calculation engine of the
monthly-budget-planner repository (the `calculations` memo in
`src/pages/home.tsx`, together with its helpers `totalSavings` and the
`parseFloat(..) || 0` parsing idiom).

Embedding conventions:
* JS numbers are embedded as exact rationals (`ℚ`); the engine only adds,
  subtracts, multiplies, divides and compares, so every algebraic identity
  below is the exact-arithmetic counterpart of the floating-point code.
* Calendar dates are embedded as integer day numbers (`ℤ`).  `parseISO`
  applied to a date text yields either a valid calendar date or an invalid
  one, embedded as `Option ℤ` (`none` = invalid date, so `isValid` is
  `Option.isSome`).  `differenceInDays e s` is `e - s`, and
  `eachDayOfInterval` over `s ≤ e` is the list `[s, s+1, ..., e]`
  (`dayRange` below).  The expense record, keyed in the source by the
  `"yyyy-MM-dd"` rendering of the date (a representation injective per
  calendar day), is embedded as a map `ℤ → Option String` keyed by the day
  number (`none` = key absent, i.e. `undefined` in JS).
* `new Date()` normalized with `setHours(0,0,0,0)` is the current calendar
  day; it is passed to the engine as an explicit `today : ℤ` parameter, the
  one point where the source samples ambient state.  `isBefore d today`
  is `d < today` and `isToday d` is `d = today` on day numbers.
-/

/-- Accumulate the numeric value of a list of decimal digit characters. -/
def digitsToNat (ds : List Char) : ℕ :=
  ds.foldl (fun acc c => 10 * acc + (c.toNat - 48)) 0

/-- Split a character list into its leading run of decimal digits and the rest. -/
def takeDigits (cs : List Char) : List Char × List Char :=
  (cs.takeWhile Char.isDigit, cs.dropWhile Char.isDigit)

/-- The digit-level decomposition of a numeric text: sign, integer digits,
fraction digits (value and count), exponent sign and digits.  Kept Nat-valued
so that parsing a concrete string is kernel-computable. -/
structure FloatParts where
  neg : Bool
  intVal : ℕ
  fracVal : ℕ
  fracLen : ℕ
  expNeg : Bool
  expVal : ℕ
deriving Repr, DecidableEq

/-- Read the exponent's own sign and digits after the `e` of a trailing
exponent suffix; when no digits follow, the exponent part is ignored (JS
`parseFloat` keeps the longest valid numeric prefix), giving exponent `0`. -/
def readSignedExp (cs : List Char) : Bool × ℕ :=
  match cs with
  | '-' :: rest =>
      let ds := (takeDigits rest).1
      if ds.isEmpty then (false, 0) else (true, digitsToNat ds)
  | '+' :: rest =>
      let ds := (takeDigits rest).1
      if ds.isEmpty then (false, 0) else (false, digitsToNat ds)
  | _ =>
      let ds := (takeDigits cs).1
      if ds.isEmpty then (false, 0) else (false, digitsToNat ds)

/-- Read the optionally signed digit string of a trailing `e`/`E` exponent;
a malformed exponent is ignored. -/
def readExp (cs : List Char) : Bool × ℕ :=
  match cs with
  | 'e' :: rest => readSignedExp rest
  | 'E' :: rest => readSignedExp rest
  | _ => (false, 0)

/-- Digit-level model of JS `parseFloat`: skip leading whitespace, read an
optional sign, then the longest prefix of the form `digits [. digits]
[exponent]`; `none` models the `NaN` result when no digits at all are found.
(Non-finite parses such as `Infinity` are outside the embedding and treated
as unparseable.) -/
def parseFloatParts (s : String) : Option FloatParts :=
  let cs := s.toList.dropWhile (fun c => c = ' ' ∨ c = '\t' ∨ c = '\n' ∨ c = '\r')
  let signAndRest : Bool × List Char :=
    match cs with
    | '-' :: rest => (true, rest)
    | '+' :: rest => (false, rest)
    | _ => (false, cs)
  let (intDs, afterInt) := takeDigits signAndRest.2
  let fracAndRest : List Char × List Char :=
    match afterInt with
    | '.' :: rest => takeDigits rest
    | _ => ([], afterInt)
  let fracDs := fracAndRest.1
  if intDs.isEmpty ∧ fracDs.isEmpty then none
  else
    let e := readExp fracAndRest.2
    some { neg := signAndRest.1
           intVal := digitsToNat intDs
           fracVal := digitsToNat fracDs
           fracLen := fracDs.length
           expNeg := e.1
           expVal := e.2 }

/-- The rational value of a digit-level decomposition:
`±(int + frac / 10^fracLen) * 10^(±exp)`. -/
def partsToRat (p : FloatParts) : ℚ :=
  let mantissa : ℚ := (p.intVal : ℚ) + (p.fracVal : ℚ) / 10 ^ p.fracLen
  let scaled : ℚ := if p.expNeg then mantissa / 10 ^ p.expVal else mantissa * 10 ^ p.expVal
  if p.neg then -scaled else scaled

/-- Model of the JS `parseFloat` applied to a free-text field; `none` models
`NaN`.  (The engine feeds every `parseFloat` result through `|| 0`, see
`jsOr0`, so the distinction that matters is `NaN` versus a parsed value,
including negative ones.) -/
def parseFloat? (s : String) : Option ℚ :=
  (parseFloatParts s).map partsToRat

/-- The JS idiom `x || 0` applied to a `parseFloat` result: `NaN` (and only
`NaN` or zero itself, which is already `0`) collapses to `0`; any other parsed
value, negative ones included, passes through. -/
def jsOr0 (x : Option ℚ) : ℚ :=
  match x with
  | none => 0
  | some q => q

/-- A savings goal as stored in `PlannerState`: the `amount` is free text,
parsed defensively at use sites. -/
structure SavingsGoal where
  id : String
  name : String
  amount : String
  category : String
deriving Repr, DecidableEq

/-- The raw planner input state.  `startDate`/`endDate` hold the `parseISO`
result of the date texts (`none` = unparseable date); `expenses` is the sparse
per-day expense record keyed by day number. -/
structure PlannerState where
  totalAmount : String
  startDate : Option ℤ
  endDate : Option ℤ
  expenses : ℤ → Option String
  savingsGoals : List SavingsGoal

/-- One computed row of the ledger (source lines 167-175); the display-only
fields `formattedDate`/`dayName` are pure renderings of `date` and carry no
logic, so they are not embedded. -/
structure DayEntry where
  date : ℤ
  allowance : ℚ
  spent : ℚ
  remaining : ℚ
deriving Repr, DecidableEq

/-- The computed ledger returned by the engine (the object literals at source
lines 133-142 and 195-205). -/
structure Ledger where
  daysCount : ℤ
  available : ℚ
  dailyAllowance : ℚ
  days : List DayEntry
  isValidRange : Bool
  totalSpent : ℚ
  totalRemaining : ℚ
  spentPercentage : ℚ
  spentUpToToday : ℚ
deriving Repr, DecidableEq

/-- Source lines 110-112: `savingsGoals.reduce((sum, goal) => sum +
(parseFloat(goal.amount) || 0), 0)`. -/
def totalSavings (goals : List SavingsGoal) : ℚ :=
  goals.foldl (fun sum goal => sum + jsOr0 (parseFloat? goal.amount)) 0

/-- Source lines 126-127: `const total = parseFloat(state.totalAmount) || 0;
const available = Math.max(0, total - totalSavings);`. -/
def availableOf (state : PlannerState) : ℚ :=
  max 0 (jsOr0 (parseFloat? state.totalAmount) - totalSavings state.savingsGoals)

/-- The degenerate ledger returned at source lines 133-142 when the range is
invalid.  The source object literal omits `spentUpToToday` (reading it yields
`undefined`); it is embedded as `0` here. -/
def degenerateLedger (available : ℚ) : Ledger :=
  { daysCount := 0
    available := available
    dailyAllowance := 0
    days := []
    isValidRange := false
    totalSpent := 0
    totalRemaining := available
    spentPercentage := 0
    spentUpToToday := 0 }

/-- Model of `eachDayOfInterval` from `start` to `e` inclusive, as day
numbers. -/
def dayRange (start e : ℤ) : List ℤ :=
  (List.range (e - start + 1).toNat).map (fun (i : ℕ) => start + (i : ℤ))

/-- The per-day loop of source lines 152-176: walk the dates carrying the
running `carryover` (initially `0`), where for each date
`allowance = baseDaily + carryover`, `spent` is the parsed expense entry when
one is present and non-empty and otherwise the whole allowance, and
`remaining = allowance - spent` becomes the next carryover. -/
def computeDays (baseDaily : ℚ) (expenses : ℤ → Option String) :
    List ℤ → ℚ → List DayEntry
  | [], _ => []
  | date :: rest, carryover =>
    let availableForDay := baseDaily + carryover
    let spent : ℚ :=
      match expenses date with
      | none => availableForDay
      | some s => if s = "" then availableForDay else jsOr0 (parseFloat? s)
    let remaining := availableForDay - spent
    { date := date
      allowance := availableForDay
      spent := spent
      remaining := remaining } :: computeDays baseDaily expenses rest remaining

/-- Source line 178: `days.reduce((sum, day) => sum + day.spent, 0)`. -/
def sumSpent (days : List DayEntry) : ℚ :=
  days.foldl (fun sum day => sum + day.spent) 0

/-- Source lines 185-193: sum of `spent` over the days on or before `today`,
the comparison `isBefore(dayDate, today) || isToday(dayDate)` taken on
start-of-day-normalized dates. -/
def sumSpentUpTo (today : ℤ) (days : List DayEntry) : ℚ :=
  days.foldl
    (fun sum day => if day.date < today ∨ day.date = today then sum + day.spent else sum) 0

/-- The valid-range branch of the engine, source lines 145-205. -/
def validLedger (available : ℚ) (expenses : ℤ → Option String) (s e today : ℤ) : Ledger :=
  let daysCount : ℤ := (e - s) + 1
  let baseDaily : ℚ := if daysCount > 0 then available / (daysCount : ℚ) else 0
  let days := computeDays baseDaily expenses (dayRange s e) 0
  let totalSpent := sumSpent days
  { daysCount := daysCount
    available := available
    dailyAllowance := baseDaily
    days := days
    isValidRange := true
    totalSpent := totalSpent
    totalRemaining := available - totalSpent
    spentPercentage :=
      if available > 0 then min 100 (totalSpent / available * 100) else 0
    spentUpToToday := sumSpentUpTo today days }

/-- The engine, source lines 125-206: parse the total, clamp `available`,
gate on range validity (`!isValid(startDate) || !isValid(endDate) ||
startDate > endDate` returns the degenerate ledger), otherwise build the
day-by-day ledger. -/
def computeLedger (state : PlannerState) (today : ℤ) : Ledger :=
  let available := availableOf state
  match state.startDate, state.endDate with
  | some s, some e =>
      if s > e then degenerateLedger available
      else validLedger available state.expenses s e today
  | none, _ => degenerateLedger available
  | _, none => degenerateLedger available

/-- A concrete input whose start date fails to parse, exercising the
degenerate branch. -/
def stInvalid : PlannerState :=
  { totalAmount := "500"
    startDate := none
    endDate := some 3
    expenses := fun _ => none
    savingsGoals := [{ id := "g1", name := "General Savings", amount := "0", category := "other" }] }

/-- Scenario B of the specification: total 1000, one goal of 200, a two-day
range (days 0 and 1), and an expense of 300 recorded on day 0. -/
def stScenB : PlannerState :=
  { totalAmount := "1000"
    startDate := some 0
    endDate := some 1
    expenses := fun d => if d = 0 then some "300" else none
    savingsGoals := [{ id := "g1", name := "General Savings", amount := "200", category := "other" }] }

/-- A two-day input overspending on day 0: total 100, zero savings, an 80
expense against a 50 base daily share. -/
def stOver : PlannerState :=
  { totalAmount := "100"
    startDate := some 0
    endDate := some 1
    expenses := fun d => if d = 0 then some "80" else none
    savingsGoals := [{ id := "g1", name := "General Savings", amount := "0", category := "other" }] }

/-- A concrete input with a parseable total of 100 and a single goal whose
amount text is the negative number -50. -/
def stNegGoal : PlannerState :=
  { totalAmount := "100"
    startDate := none
    endDate := none
    expenses := fun _ => none
    savingsGoals := [{ id := "g1", name := "General Savings", amount := "-50", category := "other" }] }

/-- A one-day input whose total parses to 0 while a negative goal amount makes
the available budget positive. -/
def stZeroTotal : PlannerState :=
  { totalAmount := "0"
    startDate := some 0
    endDate := some 0
    expenses := fun _ => none
    savingsGoals := [{ id := "g1", name := "General Savings", amount := "-100", category := "other" }] }

/-- A one-day input whose total parses to 0 next to a single zero goal. -/
def stZeroOk : PlannerState :=
  { totalAmount := "0"
    startDate := some 0
    endDate := some 0
    expenses := fun _ => none
    savingsGoals := [{ id := "g1", name := "General Savings", amount := "0", category := "other" }] }

/-- A concrete input whose total amount text is the parseable negative number
-100 next to a single goal whose amount text is -200. -/
def stNegTotal : PlannerState :=
  { totalAmount := "-100"
    startDate := none
    endDate := none
    expenses := fun _ => none
    savingsGoals := [{ id := "g1", name := "General Savings", amount := "-200", category := "other" }] }

example : parseFloatParts "100" = some ⟨false, 100, 0, 0, false, 0⟩ := by decide
example : parseFloatParts "-50" = some ⟨true, 50, 0, 0, false, 0⟩ := by decide
example : parseFloatParts "3.25" = some ⟨false, 3, 25, 2, false, 0⟩ := by decide
example : parseFloatParts "abc" = none := by decide
example : parseFloatParts "" = none := by decide
example : parseFloatParts "12abc" = some ⟨false, 12, 0, 0, false, 0⟩ := by decide
example : parseFloatParts "1.5e-2" = some ⟨false, 1, 5, 1, true, 2⟩ := by decide
example : parseFloat? "100" = some 100 := by
  rw [parseFloat?, show parseFloatParts "100" = some ⟨false, 100, 0, 0, false, 0⟩ from by decide]
  simp [partsToRat]
example : parseFloat? "-50" = some (-50) := by
  rw [parseFloat?, show parseFloatParts "-50" = some ⟨true, 50, 0, 0, false, 0⟩ from by decide]
  simp [partsToRat]
example : parseFloat? "3.25" = some (13/4) := by
  rw [parseFloat?, show parseFloatParts "3.25" = some ⟨false, 3, 25, 2, false, 0⟩ from by decide]
  simp [partsToRat]
  norm_num

theorem computeDays_cons (b : ℚ) (exp : ℤ → Option String) (date : ℤ) (rest : List ℤ)
    (c : ℚ) :
    computeDays b exp (date :: rest) c =
      { date := date
        allowance := b + c
        spent := match exp date with
          | none => b + c
          | some s => if s = "" then b + c else jsOr0 (parseFloat? s)
        remaining := (b + c) - match exp date with
          | none => b + c
          | some s => if s = "" then b + c else jsOr0 (parseFloat? s) }
      :: computeDays b exp rest
          ((b + c) - match exp date with
            | none => b + c
            | some s => if s = "" then b + c else jsOr0 (parseFloat? s)) := rfl

theorem computeDays_length (b : ℚ) (exp : ℤ → Option String) (dates : List ℤ) (c : ℚ) :
    (computeDays b exp dates c).length = dates.length := by
  induction dates generalizing c with
  | nil => rfl
  | cons d rest ih => rw [computeDays_cons]; simp [ih]

theorem computeDays_map_date (b : ℚ) (exp : ℤ → Option String) (dates : List ℤ) (c : ℚ) :
    (computeDays b exp dates c).map DayEntry.date = dates := by
  induction dates generalizing c with
  | nil => rfl
  | cons d rest ih => rw [computeDays_cons]; simp [ih]

theorem computeDays_remaining (b : ℚ) (exp : ℤ → Option String) (dates : List ℤ) (c : ℚ) :
    ∀ d ∈ computeDays b exp dates c, d.remaining = d.allowance - d.spent := by
  induction dates generalizing c with
  | nil => intro d hd; simp [computeDays] at hd
  | cons x rest ih =>
    intro d hd
    rw [computeDays_cons] at hd
    rcases List.mem_cons.mp hd with h | h
    · subst h; rfl
    · exact ih _ d h

theorem computeDays_spent_of_lookup (b : ℚ) (exp : ℤ → Option String) (dates : List ℤ)
    (c : ℚ) :
    ∀ d ∈ computeDays b exp dates c,
      (exp d.date = none → d.spent = d.allowance) ∧
      (exp d.date = some "" → d.spent = d.allowance) ∧
      (∀ s, exp d.date = some s → s ≠ "" → d.spent = jsOr0 (parseFloat? s)) := by
  induction dates generalizing c with
  | nil => intro d hd; simp [computeDays] at hd
  | cons x rest ih =>
    intro d hd
    rw [computeDays_cons] at hd
    rcases List.mem_cons.mp hd with h | h
    · subst h
      refine ⟨fun hn => ?_, fun he => ?_, fun s hs hne => ?_⟩
      · simp only [hn]
      · simp [he]
      · simp only [hs, if_neg hne]
    · exact ih _ d h

theorem computeDays_get_zero_allowance (b : ℚ) (exp : ℤ → Option String) (dates : List ℤ)
    (c : ℚ) (h : 0 < (computeDays b exp dates c).length) :
    ((computeDays b exp dates c).get ⟨0, h⟩).allowance = b + c := by
  cases dates with
  | nil => simp [computeDays] at h
  | cons x rest => rfl

theorem computeDays_get_succ_allowance (b : ℚ) (exp : ℤ → Option String) :
    ∀ (dates : List ℤ) (c : ℚ) (i : ℕ) (h : i + 1 < (computeDays b exp dates c).length),
      ((computeDays b exp dates c).get ⟨i + 1, h⟩).allowance
        = b + ((computeDays b exp dates c).get ⟨i, Nat.lt_of_succ_lt h⟩).remaining := by
  intro dates
  induction dates with
  | nil => intro c i h; simp [computeDays] at h
  | cons x rest ih =>
    intro c i h
    cases i with
    | zero => exact computeDays_get_zero_allowance b exp rest _ (Nat.lt_of_succ_lt_succ h)
    | succ j => exact ih _ j (Nat.lt_of_succ_lt_succ h)

theorem foldl_add_init {α : Type} (f : α → ℚ) (l : List α) (a : ℚ) :
    l.foldl (fun s x => s + f x) a = a + l.foldl (fun s x => s + f x) 0 := by
  induction l generalizing a with
  | nil => simp
  | cons x xs ih =>
    simp only [List.foldl_cons]
    rw [ih (a + f x), ih (0 + f x)]
    ring

theorem sumSpent_cons (d : DayEntry) (ds : List DayEntry) :
    sumSpent (d :: ds) = d.spent + sumSpent ds := by
  unfold sumSpent
  simp only [List.foldl_cons]
  rw [foldl_add_init DayEntry.spent ds (0 + d.spent)]
  ring

theorem sumSpent_eq_map_sum (ds : List DayEntry) :
    sumSpent ds = (ds.map DayEntry.spent).sum := by
  induction ds with
  | nil => rfl
  | cons d ds ih => rw [sumSpent_cons, ih, List.map_cons, List.sum_cons]

theorem foldl_ite_add_init {α : Type} (p : α → Prop) [DecidablePred p] (f : α → ℚ)
    (l : List α) (a : ℚ) :
    l.foldl (fun s x => if p x then s + f x else s) a
      = a + l.foldl (fun s x => if p x then s + f x else s) 0 := by
  induction l generalizing a with
  | nil => simp
  | cons x xs ih =>
    simp only [List.foldl_cons]
    by_cases h : p x
    · simp only [if_pos h]
      rw [ih (a + f x), ih (0 + f x)]
      ring
    · simp only [if_neg h]
      exact ih a

theorem sumSpentUpTo_shift (t : ℤ) (ds : List DayEntry) (a : ℚ) :
    ds.foldl (fun sum day => if day.date < t ∨ day.date = t then sum + day.spent else sum) a
      = a + sumSpentUpTo t ds :=
  foldl_ite_add_init (fun day => day.date < t ∨ day.date = t) DayEntry.spent ds a

theorem sumSpentUpTo_cons (t : ℤ) (d : DayEntry) (ds : List DayEntry) :
    sumSpentUpTo t (d :: ds)
      = (if d.date < t ∨ d.date = t then d.spent else 0) + sumSpentUpTo t ds := by
  have h1 : sumSpentUpTo t (d :: ds)
      = ds.foldl (fun sum day => if day.date < t ∨ day.date = t then sum + day.spent else sum)
          (if d.date < t ∨ d.date = t then 0 + d.spent else 0) := rfl
  rw [h1, sumSpentUpTo_shift]
  by_cases h : d.date < t ∨ d.date = t
  · rw [if_pos h, if_pos h]
    ring
  · rw [if_neg h, if_neg h]

theorem sumSpentUpTo_eq_filter (t : ℤ) (ds : List DayEntry) :
    sumSpentUpTo t ds
      = ((ds.filter (fun d => d.date ≤ t)).map DayEntry.spent).sum := by
  induction ds with
  | nil => rfl
  | cons d ds ih =>
    rw [sumSpentUpTo_cons, ih, List.filter_cons]
    by_cases h : d.date ≤ t
    · have h' : d.date < t ∨ d.date = t := lt_or_eq_of_le h
      simp [h, h']
    · have h' : ¬(d.date < t ∨ d.date = t) := by
        rw [← le_iff_lt_or_eq]; exact h
      simp [h, h']

theorem computeDays_cons_exists (b : ℚ) (exp : ℤ → Option String) (x : ℤ) (rest : List ℤ)
    (c : ℚ) :
    ∃ sp : ℚ, computeDays b exp (x :: rest) c
      = { date := x, allowance := b + c, spent := sp, remaining := (b + c) - sp }
          :: computeDays b exp rest ((b + c) - sp) :=
  ⟨_, rfl⟩

theorem computeDays_ne_nil (b : ℚ) (exp : ℤ → Option String) (x : ℤ) (rest : List ℤ)
    (c : ℚ) : computeDays b exp (x :: rest) c ≠ [] := by
  intro hnil
  have hlen := computeDays_length b exp (x :: rest) c
  rw [hnil] at hlen
  simp at hlen

theorem computeDays_get_date (b : ℚ) (exp : ℤ → Option String) :
    ∀ (dates : List ℤ) (c : ℚ) (i : ℕ) (h : i < (computeDays b exp dates c).length),
      ((computeDays b exp dates c).get ⟨i, h⟩).date
        = dates.get ⟨i, computeDays_length b exp dates c ▸ h⟩ := by
  intro dates
  induction dates with
  | nil => intro c i h; simp [computeDays] at h
  | cons x rest ih =>
    intro c i h
    cases i with
    | zero => rfl
    | succ j => exact ih _ j (Nat.lt_of_succ_lt_succ h)

theorem computeDays_getLast_remaining (b : ℚ) (exp : ℤ → Option String) :
    ∀ (dates : List ℤ) (c : ℚ) (last : DayEntry),
      (computeDays b exp dates c).getLast? = some last →
      last.remaining = c + (dates.length : ℚ) * b - sumSpent (computeDays b exp dates c) := by
  intro dates
  induction dates with
  | nil => intro c last hlast; simp [computeDays] at hlast
  | cons x rest ih =>
    intro c last hlast
    obtain ⟨sp, hsp⟩ := computeDays_cons_exists b exp x rest c
    rw [hsp] at hlast
    cases rest with
    | nil =>
      simp only [computeDays, List.getLast?_singleton, Option.some.injEq] at hlast
      subst hlast
      rw [hsp]
      simp only [computeDays, sumSpent, List.foldl_cons, List.foldl_nil, List.length_cons,
        List.length_nil]
      push_cast
      ring
    | cons y rest2 =>
      have h2 : (DayEntry.mk x (b + c) sp ((b + c) - sp)
            :: computeDays b exp (y :: rest2) ((b + c) - sp)).getLast?
          = (computeDays b exp (y :: rest2) ((b + c) - sp)).getLast? := by
        obtain ⟨sp2, hsp2⟩ := computeDays_cons_exists b exp y rest2 ((b + c) - sp)
        rw [hsp2, List.getLast?_cons_cons]
      rw [h2] at hlast
      have hrec := ih ((b + c) - sp) last hlast
      rw [hsp, sumSpent_cons, hrec]
      simp only [List.length_cons]
      push_cast
      ring

theorem dayRange_length (s e : ℤ) : (dayRange s e).length = (e - s + 1).toNat := by
  rw [dayRange, List.length_map, List.length_range]

theorem dayRange_get (s e : ℤ) (i : ℕ) (h : i < (dayRange s e).length) :
    (dayRange s e).get ⟨i, h⟩ = s + i := by
  rw [List.get_eq_getElem]
  unfold dayRange
  rw [List.getElem_map, List.getElem_range]

theorem computeLedger_valid (state : PlannerState) (today s e : ℤ)
    (hs : state.startDate = some s) (he : state.endDate = some e) (hle : s ≤ e) :
    computeLedger state today = validLedger (availableOf state) state.expenses s e today := by
  simp only [computeLedger, hs, he]
  rw [if_neg (not_lt.mpr hle)]

theorem computeLedger_degenerate (state : PlannerState) (today : ℤ)
    (h : state.startDate = none ∨ state.endDate = none ∨
      ∃ s e, state.startDate = some s ∧ state.endDate = some e ∧ e < s) :
    computeLedger state today = degenerateLedger (availableOf state) := by
  rcases h with h | h | ⟨s, e, hs, he, hlt⟩
  · cases he : state.endDate <;> simp only [computeLedger, h, he]
  · cases hs : state.startDate <;> simp only [computeLedger, h, hs]
  · simp only [computeLedger, hs, he]
    rw [if_pos hlt]

theorem validLedger_spec (available : ℚ) (exp : ℤ → Option String) (s e today : ℤ)
    (hle : s ≤ e) :
    validLedger available exp s e today =
      { daysCount := e - s + 1
        available := available
        dailyAllowance := available / ((e - s + 1 : ℤ) : ℚ)
        days := computeDays (available / ((e - s + 1 : ℤ) : ℚ)) exp (dayRange s e) 0
        isValidRange := true
        totalSpent := sumSpent
          (computeDays (available / ((e - s + 1 : ℤ) : ℚ)) exp (dayRange s e) 0)
        totalRemaining := available - sumSpent
          (computeDays (available / ((e - s + 1 : ℤ) : ℚ)) exp (dayRange s e) 0)
        spentPercentage := if available > 0 then
            min 100 (sumSpent
              (computeDays (available / ((e - s + 1 : ℤ) : ℚ)) exp (dayRange s e) 0)
              / available * 100)
          else 0
        spentUpToToday := sumSpentUpTo today
          (computeDays (available / ((e - s + 1 : ℤ) : ℚ)) exp (dayRange s e) 0) } := by
  have hpos : (0 : ℤ) < e - s + 1 := by omega
  simp only [validLedger]
  rw [if_pos hpos]

theorem getQ_to_get {α : Type} {l : List α} {i : ℕ} {a : α} (h : l[i]? = some a) :
    ∃ hi : i < l.length, l.get ⟨i, hi⟩ = a := by
  rw [List.getElem?_eq_some] at h
  obtain ⟨hi, ha⟩ := h
  exact ⟨hi, by rw [List.get_eq_getElem]; exact ha⟩

theorem totalSavings_cons (g : SavingsGoal) (goals : List SavingsGoal) :
    totalSavings (g :: goals) = jsOr0 (parseFloat? g.amount) + totalSavings goals := by
  unfold totalSavings
  simp only [List.foldl_cons]
  rw [foldl_add_init (fun x => jsOr0 (parseFloat? x.amount)) goals (0 + jsOr0 (parseFloat? g.amount))]
  ring

theorem totalSavings_eq_map_sum (goals : List SavingsGoal) :
    totalSavings goals = (goals.map (fun g => jsOr0 (parseFloat? g.amount))).sum := by
  induction goals with
  | nil => rfl
  | cons g goals ih => rw [totalSavings_cons, ih, List.map_cons, List.sum_cons]

theorem computeLedger_valid_spec (state : PlannerState) (today s e : ℤ)
    (hs : state.startDate = some s) (he : state.endDate = some e) (hle : s ≤ e) :
    computeLedger state today =
      { daysCount := e - s + 1
        available := availableOf state
        dailyAllowance := availableOf state / ((e - s + 1 : ℤ) : ℚ)
        days := computeDays (availableOf state / ((e - s + 1 : ℤ) : ℚ)) state.expenses
          (dayRange s e) 0
        isValidRange := true
        totalSpent := sumSpent (computeDays (availableOf state / ((e - s + 1 : ℤ) : ℚ))
          state.expenses (dayRange s e) 0)
        totalRemaining := availableOf state
          - sumSpent (computeDays (availableOf state / ((e - s + 1 : ℤ) : ℚ))
              state.expenses (dayRange s e) 0)
        spentPercentage := if availableOf state > 0 then
            min 100 (sumSpent (computeDays (availableOf state / ((e - s + 1 : ℤ) : ℚ))
                state.expenses (dayRange s e) 0) / availableOf state * 100)
          else 0
        spentUpToToday := sumSpentUpTo today
          (computeDays (availableOf state / ((e - s + 1 : ℤ) : ℚ)) state.expenses
            (dayRange s e) 0) } := by
  rw [computeLedger_valid state today s e hs he hle, validLedger_spec _ _ _ _ _ hle]

theorem computeLedger_available (state : PlannerState) (today : ℤ) :
    (computeLedger state today).available = availableOf state := by
  cases hs : state.startDate with
  | none => rw [computeLedger_degenerate state today (Or.inl hs)]; rfl
  | some s =>
    cases he : state.endDate with
    | none => rw [computeLedger_degenerate state today (Or.inr (Or.inl he))]; rfl
    | some e =>
      by_cases hle : s ≤ e
      · rw [computeLedger_valid_spec state today s e hs he hle]
      · rw [computeLedger_degenerate state today
          (Or.inr (Or.inr ⟨s, e, hs, he, by omega⟩))]
        rfl

/-- C4: for every total-amount text and every sequence of savings goals, the
computed `available` equals `max 0 (totalAmount - totalSavings)` — the parsed
total minus the sum of the parsed goal amounts, clamped below at `0` — and is
therefore never negative, however large total savings is relative to the total
amount. -/
theorem C4_available_clamped (state : PlannerState) (today : ℤ) :
    (computeLedger state today).available
      = max 0 (jsOr0 (parseFloat? state.totalAmount) - totalSavings state.savingsGoals)
    ∧ 0 ≤ (computeLedger state today).available := by
  rw [computeLedger_available state today]
  exact ⟨rfl, le_max_left 0 _⟩

/-- C3: the engine is a total function (`computeLedger` is defined for every
input, so it never throws), and whenever either date fails to parse or the end
date precedes the start date it returns the degenerate ledger: zero day count,
`available` as computed, zero daily allowance, no day entries, invalid-range
flag, and the remaining aggregates defaulting to zero or to `available`. -/
theorem C3_degenerate_ledger (state : PlannerState) (today : ℤ)
    (h : state.startDate = none ∨ state.endDate = none ∨
      ∃ s e, state.startDate = some s ∧ state.endDate = some e ∧ e < s) :
    (computeLedger state today).daysCount = 0 ∧
    (computeLedger state today).available = availableOf state ∧
    (computeLedger state today).dailyAllowance = 0 ∧
    (computeLedger state today).days = [] ∧
    (computeLedger state today).isValidRange = false ∧
    (computeLedger state today).totalSpent = 0 ∧
    (computeLedger state today).totalRemaining = (computeLedger state today).available ∧
    (computeLedger state today).spentPercentage = 0 := by
  rw [computeLedger_degenerate state today h]
  exact ⟨rfl, rfl, rfl, rfl, rfl, rfl, rfl, rfl⟩

/-- C1: for every valid date range, the day entries satisfy the carryover
recurrence: day 0's allowance equals the base daily share (its carryover is
`0`), every day `i+1`'s allowance equals the base daily share plus day `i`'s
remaining, and every day's remaining equals its allowance minus its spent. -/
theorem C1_carryover_recurrence (state : PlannerState) (today s e : ℤ)
    (hs : state.startDate = some s) (he : state.endDate = some e) (hle : s ≤ e) :
    (∀ d0, (computeLedger state today).days[0]? = some d0 →
      d0.allowance = (computeLedger state today).dailyAllowance) ∧
    (∀ i di dsi, (computeLedger state today).days[i]? = some di →
      (computeLedger state today).days[i + 1]? = some dsi →
      dsi.allowance = (computeLedger state today).dailyAllowance + di.remaining) ∧
    (∀ d ∈ (computeLedger state today).days, d.remaining = d.allowance - d.spent) := by
  rw [computeLedger_valid_spec state today s e hs he hle]
  refine ⟨?_, ?_, ?_⟩
  · intro d0 h0
    obtain ⟨hl, hget⟩ := getQ_to_get h0
    rw [← hget, computeDays_get_zero_allowance]
    exact add_zero _
  · intro i di dsi hdi hdsi
    obtain ⟨hli, hgi⟩ := getQ_to_get hdi
    obtain ⟨hlsi, hgsi⟩ := getQ_to_get hdsi
    rw [← hgi, ← hgsi]
    exact computeDays_get_succ_allowance _ _ _ _ i hlsi
  · exact computeDays_remaining _ _ _ _

/-- C2: for every day of a valid range, when the expense record has no entry
for that day's key, or an empty-string entry, the day's spent equals its
allowance exactly; when a non-empty entry is present, spent equals its parsed
decimal value, and in particular unparseable text yields `0`. -/
theorem C2_default_spend_policy (state : PlannerState) (today s e : ℤ)
    (hs : state.startDate = some s) (he : state.endDate = some e) (hle : s ≤ e) :
    ∀ d ∈ (computeLedger state today).days,
      (state.expenses d.date = none → d.spent = d.allowance) ∧
      (state.expenses d.date = some "" → d.spent = d.allowance) ∧
      (∀ str, state.expenses d.date = some str → str ≠ "" →
        d.spent = jsOr0 (parseFloat? str)) ∧
      (∀ str, state.expenses d.date = some str → str ≠ "" → parseFloat? str = none →
        d.spent = 0) := by
  rw [computeLedger_valid_spec state today s e hs he hle]
  intro d hd
  obtain ⟨h1, h2, h3⟩ := computeDays_spent_of_lookup _ _ _ _ d hd
  refine ⟨h1, h2, h3, fun str hstr hne hnan => ?_⟩
  rw [h3 str hstr hne, hnan]
  rfl

/-- C7: for every valid date range, `daysCount` equals the inclusive day count
from start to end (a single-day range gives `1`), the emitted day sequence has
exactly `daysCount` entries, and entry `i`'s calendar date is `start + i`, so
the entries appear in ascending order, one per day of the range. -/
theorem C7_days_count_and_order (state : PlannerState) (today s e : ℤ)
    (hs : state.startDate = some s) (he : state.endDate = some e) (hle : s ≤ e) :
    (computeLedger state today).daysCount = e - s + 1 ∧
    ((computeLedger state today).days.length : ℤ) = (computeLedger state today).daysCount ∧
    (∀ (i : ℕ) (d : DayEntry), (computeLedger state today).days[i]? = some d →
      d.date = s + (i : ℤ)) := by
  rw [computeLedger_valid_spec state today s e hs he hle]
  refine ⟨rfl, ?_, ?_⟩
  · show ((computeDays _ _ _ _).length : ℤ) = e - s + 1
    rw [computeDays_length, dayRange_length]
    omega
  · intro i d hd
    obtain ⟨hl, hget⟩ := getQ_to_get hd
    rw [← hget, computeDays_get_date]
    exact dayRange_get s e i _

/-- C8: for every valid range and every current day `today`, `spentUpToToday`
equals the sum of `spent` over exactly those emitted days whose calendar date
is on or before `today` (the embedding carries calendar days only, matching
the source's normalization of both sides to start-of-day before comparing). -/
theorem C8_spent_up_to_today (state : PlannerState) (today s e : ℤ)
    (hs : state.startDate = some s) (he : state.endDate = some e) (hle : s ≤ e) :
    (computeLedger state today).spentUpToToday
      = (((computeLedger state today).days.filter (fun d => d.date ≤ today)).map
          DayEntry.spent).sum := by
  rw [computeLedger_valid_spec state today s e hs he hle]
  exact sumSpentUpTo_eq_filter today _

/-- C9: for every valid range, if day `i` has `spent` exceeding its
`allowance` and day `i+1` exists, then day `i+1`'s allowance is strictly less
than the base daily share, and less by exactly the overspend amount
`spent - allowance`. -/
theorem C9_overspend_propagation (state : PlannerState) (today s e : ℤ)
    (hs : state.startDate = some s) (he : state.endDate = some e) (hle : s ≤ e)
    (i : ℕ) (di dsi : DayEntry)
    (hdi : (computeLedger state today).days[i]? = some di)
    (hdsi : (computeLedger state today).days[i + 1]? = some dsi)
    (hover : di.allowance < di.spent) :
    dsi.allowance < (computeLedger state today).dailyAllowance ∧
    dsi.allowance
      = (computeLedger state today).dailyAllowance - (di.spent - di.allowance) := by
  have hB : (computeLedger state today).dailyAllowance
      = availableOf state / ((e - s + 1 : ℤ) : ℚ) := by
    rw [computeLedger_valid_spec state today s e hs he hle]
  have hdays : (computeLedger state today).days
      = computeDays (availableOf state / ((e - s + 1 : ℤ) : ℚ)) state.expenses
          (dayRange s e) 0 := by
    rw [computeLedger_valid_spec state today s e hs he hle]
  rw [hdays] at hdi hdsi
  obtain ⟨hli, hgi⟩ := getQ_to_get hdi
  obtain ⟨hlsi, hgsi⟩ := getQ_to_get hdsi
  have hmem := List.getElem?_mem hdi
  have hrem := computeDays_remaining _ _ _ _ di hmem
  have hsucc : dsi.allowance
      = availableOf state / ((e - s + 1 : ℤ) : ℚ) + di.remaining := by
    rw [← hgsi, ← hgi]
    exact computeDays_get_succ_allowance _ _ _ _ i hlsi
  rw [hB]
  constructor
  · rw [hsucc, hrem]
    linarith
  · rw [hsucc, hrem]
    ring

/-- C10: for every valid non-empty range, under the exact rational arithmetic
of the embedding the last emitted day's `remaining` equals `totalRemaining`,
which itself equals `available - totalSpent`: the carryover chain telescopes
so the final day's leftover is the whole-period leftover. -/
theorem C10_last_remaining_telescopes (state : PlannerState) (today s e : ℤ)
    (hs : state.startDate = some s) (he : state.endDate = some e) (hle : s ≤ e)
    (last : DayEntry)
    (hlast : (computeLedger state today).days.getLast? = some last) :
    last.remaining = (computeLedger state today).totalRemaining ∧
    (computeLedger state today).totalRemaining
      = (computeLedger state today).available - (computeLedger state today).totalSpent := by
  have hdays : (computeLedger state today).days
      = computeDays (availableOf state / ((e - s + 1 : ℤ) : ℚ)) state.expenses
          (dayRange s e) 0 := by
    rw [computeLedger_valid_spec state today s e hs he hle]
  have hTR : (computeLedger state today).totalRemaining
      = availableOf state - sumSpent (computeDays
          (availableOf state / ((e - s + 1 : ℤ) : ℚ)) state.expenses (dayRange s e) 0) := by
    rw [computeLedger_valid_spec state today s e hs he hle]
  have hTS : (computeLedger state today).totalSpent
      = sumSpent (computeDays (availableOf state / ((e - s + 1 : ℤ) : ℚ)) state.expenses
          (dayRange s e) 0) := by
    rw [computeLedger_valid_spec state today s e hs he hle]
  have hAv := computeLedger_available state today
  rw [hdays] at hlast
  have hrec := computeDays_getLast_remaining
    (availableOf state / ((e - s + 1 : ℤ) : ℚ)) state.expenses (dayRange s e) 0 last hlast
  have h1 : ((e - s + 1).toNat : ℤ) = e - s + 1 := Int.toNat_of_nonneg (by omega)
  have hlen : (((dayRange s e).length : ℕ) : ℚ) = ((e - s + 1 : ℤ) : ℚ) := by
    rw [dayRange_length]
    exact_mod_cast h1
  have hne : ((e - s + 1 : ℤ) : ℚ) ≠ 0 := by
    rw [Int.cast_ne_zero]
    omega
  constructor
  · rw [hrec, hTR, hlen, zero_add, mul_comm, div_mul_cancel₀ _ hne]
  · rw [hTR, hTS, hAv]

theorem computeDays_nil (b : ℚ) (exp : ℤ → Option String) (c : ℚ) :
    computeDays b exp [] c = [] := rfl

theorem parseFloat_nonneg_nat (s : String) (n : ℕ)
    (h : parseFloatParts s = some ⟨false, n, 0, 0, false, 0⟩) :
    parseFloat? s = some (n : ℚ) := by
  rw [parseFloat?, h]
  simp [partsToRat]

theorem parseFloat_neg_nat (s : String) (n : ℕ)
    (h : parseFloatParts s = some ⟨true, n, 0, 0, false, 0⟩) :
    parseFloat? s = some (-(n : ℚ)) := by
  rw [parseFloat?, h]
  simp [partsToRat]

theorem totalSavings_singleton (g : SavingsGoal) :
    totalSavings [g] = jsOr0 (parseFloat? g.amount) := by
  rw [totalSavings_cons]
  show _ + totalSavings [] = _
  rw [show totalSavings [] = 0 from rfl, add_zero]

theorem availableOf_stScenB : availableOf stScenB = 800 := by
  show max 0 (jsOr0 (parseFloat? "1000")
    - totalSavings [{ id := "g1", name := "General Savings", amount := "200", category := "other" }]) = 800
  rw [totalSavings_singleton, parseFloat_nonneg_nat "1000" 1000 (by decide),
    parseFloat_nonneg_nat "200" 200 (by decide)]
  show max 0 ((1000 : ℚ) - 200) = 800
  rw [max_eq_right (by norm_num : (0 : ℚ) ≤ 1000 - 200)]
  norm_num

theorem availableOf_stOver : availableOf stOver = 100 := by
  show max 0 (jsOr0 (parseFloat? "100")
    - totalSavings [{ id := "g1", name := "General Savings", amount := "0", category := "other" }]) = 100
  rw [totalSavings_singleton, parseFloat_nonneg_nat "100" 100 (by decide),
    parseFloat_nonneg_nat "0" 0 (by decide)]
  show max 0 ((100 : ℚ) - 0) = 100
  rw [max_eq_right (by norm_num : (0 : ℚ) ≤ 100 - 0)]
  norm_num

theorem availableOf_stNegGoal : availableOf stNegGoal = 150 := by
  show max 0 (jsOr0 (parseFloat? "100")
    - totalSavings [{ id := "g1", name := "General Savings", amount := "-50", category := "other" }]) = 150
  rw [totalSavings_singleton, parseFloat_nonneg_nat "100" 100 (by decide),
    parseFloat_neg_nat "-50" 50 (by decide)]
  show max 0 ((100 : ℚ) - -(50 : ℚ)) = 150
  rw [max_eq_right (by norm_num : (0 : ℚ) ≤ 100 - -(50 : ℚ))]
  norm_num

theorem availableOf_stZeroTotal : availableOf stZeroTotal = 100 := by
  show max 0 (jsOr0 (parseFloat? "0")
    - totalSavings [{ id := "g1", name := "General Savings", amount := "-100", category := "other" }]) = 100
  rw [totalSavings_singleton, parseFloat_nonneg_nat "0" 0 (by decide),
    parseFloat_neg_nat "-100" 100 (by decide)]
  show max 0 ((0 : ℚ) - -(100 : ℚ)) = 100
  rw [max_eq_right (by norm_num : (0 : ℚ) ≤ 0 - -(100 : ℚ))]
  norm_num

theorem jsOr0_300 : jsOr0 (parseFloat? "300") = 300 := by
  rw [parseFloat_nonneg_nat "300" 300 (by decide)]
  show ((300 : ℕ) : ℚ) = 300
  norm_num

theorem jsOr0_80 : jsOr0 (parseFloat? "80") = 80 := by
  rw [parseFloat_nonneg_nat "80" 80 (by decide)]
  show ((80 : ℕ) : ℚ) = 80
  norm_num

theorem computeDays_stScenB :
    computeDays 400 stScenB.expenses [0, 1] 0
      = [DayEntry.mk 0 400 300 100, DayEntry.mk 1 500 500 0] := by
  show [DayEntry.mk 0 ((400 : ℚ) + 0) (jsOr0 (parseFloat? "300"))
          (((400 : ℚ) + 0) - jsOr0 (parseFloat? "300")),
        DayEntry.mk 1 (400 + (((400 : ℚ) + 0) - jsOr0 (parseFloat? "300")))
          (400 + (((400 : ℚ) + 0) - jsOr0 (parseFloat? "300")))
          ((400 + (((400 : ℚ) + 0) - jsOr0 (parseFloat? "300")))
            - (400 + (((400 : ℚ) + 0) - jsOr0 (parseFloat? "300"))))]
      = [DayEntry.mk 0 400 300 100, DayEntry.mk 1 500 500 0]
  rw [jsOr0_300]
  norm_num

theorem computeDays_stOver :
    computeDays 50 stOver.expenses [0, 1] 0
      = [DayEntry.mk 0 50 80 (-30), DayEntry.mk 1 20 20 0] := by
  show [DayEntry.mk 0 ((50 : ℚ) + 0) (jsOr0 (parseFloat? "80"))
          (((50 : ℚ) + 0) - jsOr0 (parseFloat? "80")),
        DayEntry.mk 1 (50 + (((50 : ℚ) + 0) - jsOr0 (parseFloat? "80")))
          (50 + (((50 : ℚ) + 0) - jsOr0 (parseFloat? "80")))
          ((50 + (((50 : ℚ) + 0) - jsOr0 (parseFloat? "80")))
            - (50 + (((50 : ℚ) + 0) - jsOr0 (parseFloat? "80"))))]
      = [DayEntry.mk 0 50 80 (-30), DayEntry.mk 1 20 20 0]
  rw [jsOr0_80]
  norm_num

theorem computeDays_stZeroTotal :
    computeDays 100 stZeroTotal.expenses [0] 0
      = [DayEntry.mk 0 100 100 0] := by
  show [DayEntry.mk 0 ((100 : ℚ) + 0) ((100 : ℚ) + 0) (((100 : ℚ) + 0) - ((100 : ℚ) + 0))]
      = [DayEntry.mk 0 100 100 0]
  norm_num

theorem ledger_stScenB_days :
    (computeLedger stScenB 0).days
      = [DayEntry.mk 0 400 300 100, DayEntry.mk 1 500 500 0] := by
  rw [computeLedger_valid_spec stScenB 0 0 1 rfl rfl (by decide)]
  show computeDays (availableOf stScenB / ((1 - 0 + 1 : ℤ) : ℚ)) stScenB.expenses
      (dayRange 0 1) 0 = _
  rw [availableOf_stScenB, show dayRange 0 1 = [0, 1] from by decide,
    show (800 : ℚ) / ((1 - 0 + 1 : ℤ) : ℚ) = 400 from by norm_num]
  exact computeDays_stScenB

theorem ledger_stOver_days :
    (computeLedger stOver 0).days
      = [DayEntry.mk 0 50 80 (-30), DayEntry.mk 1 20 20 0] := by
  rw [computeLedger_valid_spec stOver 0 0 1 rfl rfl (by decide)]
  show computeDays (availableOf stOver / ((1 - 0 + 1 : ℤ) : ℚ)) stOver.expenses
      (dayRange 0 1) 0 = _
  rw [availableOf_stOver, show dayRange 0 1 = [0, 1] from by decide,
    show (100 : ℚ) / ((1 - 0 + 1 : ℤ) : ℚ) = 50 from by norm_num]
  exact computeDays_stOver

theorem ledger_stZeroTotal_dailyAllowance :
    (computeLedger stZeroTotal 0).dailyAllowance = 100 := by
  rw [computeLedger_valid_spec stZeroTotal 0 0 0 rfl rfl (by decide)]
  show availableOf stZeroTotal / ((0 - 0 + 1 : ℤ) : ℚ) = 100
  rw [availableOf_stZeroTotal]
  norm_num

theorem ledger_stZeroTotal_pct :
    (computeLedger stZeroTotal 0).spentPercentage = 100 := by
  rw [computeLedger_valid_spec stZeroTotal 0 0 0 rfl rfl (by decide)]
  show (if availableOf stZeroTotal > 0
      then min 100 (sumSpent (computeDays (availableOf stZeroTotal / ((0 - 0 + 1 : ℤ) : ℚ))
        stZeroTotal.expenses (dayRange 0 0) 0) / availableOf stZeroTotal * 100)
      else 0) = 100
  rw [availableOf_stZeroTotal, show dayRange 0 0 = [0] from by decide,
    show (100 : ℚ) / ((0 - 0 + 1 : ℤ) : ℚ) = 100 from by norm_num,
    if_pos (by norm_num : (100 : ℚ) > 0), computeDays_stZeroTotal,
    show sumSpent [DayEntry.mk 0 100 100 0] = 100 from by
      show (0 : ℚ) + 100 = 100
      norm_num,
    show (100 : ℚ) / 100 * 100 = 100 from by norm_num, min_self]

theorem spentPercentage_formula_degenerate (av : ℚ) :
    (degenerateLedger av).spentPercentage
      = if (degenerateLedger av).available > 0
        then min 100 ((degenerateLedger av).totalSpent / (degenerateLedger av).available * 100)
        else 0 := by
  show (0 : ℚ) = if av > 0 then min 100 (0 / av * 100) else 0
  by_cases h : av > 0
  · rw [if_pos h, zero_div, zero_mul, min_eq_right (by norm_num : (0 : ℚ) ≤ 100)]
  · rw [if_neg h]

/-- C5 counterexample: at the concrete input with total text "100" and one
goal whose amount text is "-50", the parsed negative goal amount flows into
`totalSavings` as -50 instead of being treated as 0, making `available` 150
where the claim would give `max 0 (100 - 0) = 100`. -/
theorem C5_counterexample :
    totalSavings stNegGoal.savingsGoals = -50 ∧
    totalSavings stNegGoal.savingsGoals ≠ 0 ∧
    (computeLedger stNegGoal 0).available = 150 ∧
    (computeLedger stNegGoal 0).available
      ≠ max 0 (jsOr0 (parseFloat? stNegGoal.totalAmount) - 0) := by
  have hts : totalSavings stNegGoal.savingsGoals = -50 := by
    show totalSavings [{ id := "g1", name := "General Savings", amount := "-50", category := "other" }] = -50
    rw [totalSavings_singleton, parseFloat_neg_nat "-50" 50 (by decide)]
    show -((50 : ℕ) : ℚ) = -50
    norm_num
  have hav : (computeLedger stNegGoal 0).available = 150 := by
    rw [computeLedger_available, availableOf_stNegGoal]
  have h100 : jsOr0 (parseFloat? stNegGoal.totalAmount) = 100 := by
    rw [show stNegGoal.totalAmount = "100" from rfl, parseFloat_nonneg_nat "100" 100 (by decide)]
    show ((100 : ℕ) : ℚ) = 100
    norm_num
  refine ⟨hts, by rw [hts]; norm_num, hav, ?_⟩
  rw [hav, h100,
    show max 0 ((100 : ℚ) - 0) = 100 from by
      rw [max_eq_right (by norm_num : (0 : ℚ) ≤ 100 - 0)]
      norm_num]
  norm_num

theorem availableOf_stNegTotal : availableOf stNegTotal = 100 := by
  show max 0 (jsOr0 (parseFloat? "-100")
    - totalSavings [{ id := "g1", name := "General Savings", amount := "-200", category := "other" }]) = 100
  rw [totalSavings_singleton, parseFloat_neg_nat "-100" 100 (by decide),
    parseFloat_neg_nat "-200" 200 (by decide)]
  show max 0 (-(100 : ℚ) - -(200 : ℚ)) = 100
  rw [max_eq_right (by norm_num : (0 : ℚ) ≤ -(100 : ℚ) - -(200 : ℚ))]
  norm_num

/-- C5 (amended): for every input, non-numeric total or goal amount text
parses to NaN and is treated as 0 with no error surfaced, but negative values
are NOT treated as 0: any total or goal amount that does parse — negative
values included — flows through exactly as parsed (the `|| 0` idiom collapses
only the NaN case), each goal contributes exactly its parsed value to
`totalSavings`, and `available` clamps only the final difference
`total - totalSavings` at 0. -/
theorem C5_amended_parsing (state : PlannerState) (today : ℤ) :
    (parseFloat? state.totalAmount = none → jsOr0 (parseFloat? state.totalAmount) = 0) ∧
    (∀ q : ℚ, parseFloat? state.totalAmount = some q →
      jsOr0 (parseFloat? state.totalAmount) = q) ∧
    (∀ g : SavingsGoal, parseFloat? g.amount = none → jsOr0 (parseFloat? g.amount) = 0) ∧
    (∀ g : SavingsGoal, ∀ q : ℚ, parseFloat? g.amount = some q →
      jsOr0 (parseFloat? g.amount) = q) ∧
    totalSavings state.savingsGoals
      = (state.savingsGoals.map (fun g => jsOr0 (parseFloat? g.amount))).sum ∧
    (computeLedger state today).available
      = max 0 (jsOr0 (parseFloat? state.totalAmount) - totalSavings state.savingsGoals) := by
  refine ⟨fun h => ?_, fun q h => ?_, fun g h => ?_, fun g q h => ?_,
    totalSavings_eq_map_sum _, ?_⟩
  · rw [h]
    rfl
  · rw [h]
    rfl
  · rw [h]
    rfl
  · rw [h]
    rfl
  · rw [computeLedger_available]
    rfl

theorem C5_amended_witness :
    parseFloat? stNegTotal.totalAmount = some (-100) ∧
    jsOr0 (parseFloat? stNegTotal.totalAmount) = -100 ∧
    totalSavings stNegTotal.savingsGoals
      = (stNegTotal.savingsGoals.map (fun g => jsOr0 (parseFloat? g.amount))).sum ∧
    (computeLedger stNegTotal 0).available
      = max 0 (jsOr0 (parseFloat? stNegTotal.totalAmount)
          - totalSavings stNegTotal.savingsGoals) ∧
    (computeLedger stNegTotal 0).available = 100 := by
  have hparse : parseFloat? stNegTotal.totalAmount = some (-100) := by
    rw [show stNegTotal.totalAmount = "-100" from rfl,
      parseFloat_neg_nat "-100" 100 (by decide)]
    norm_num
  refine ⟨hparse, (C5_amended_parsing stNegTotal 0).2.1 (-100) hparse,
    (C5_amended_parsing stNegTotal 0).2.2.2.2.1,
    (C5_amended_parsing stNegTotal 0).2.2.2.2.2, ?_⟩
  rw [computeLedger_available, availableOf_stNegTotal]

/-- C6 counterexample: at the concrete one-day input whose total text is "0"
but whose single goal amount text is "-100", the total parses to 0 yet
`available` is 100, `dailyAllowance` is 100 and `spentPercentage` is 100,
refuting the claim that totalAmount 0 forces all three to be 0. -/
theorem C6_counterexample :
    jsOr0 (parseFloat? stZeroTotal.totalAmount) = 0 ∧
    (computeLedger stZeroTotal 0).available = 100 ∧
    (computeLedger stZeroTotal 0).dailyAllowance = 100 ∧
    (computeLedger stZeroTotal 0).spentPercentage = 100 := by
  refine ⟨?_, ?_, ledger_stZeroTotal_dailyAllowance, ledger_stZeroTotal_pct⟩
  · rw [show stZeroTotal.totalAmount = "0" from rfl, parseFloat_nonneg_nat "0" 0 (by decide)]
    show ((0 : ℕ) : ℚ) = 0
    norm_num
  · rw [computeLedger_available, availableOf_stZeroTotal]

/-- C6 (amended): for every input, `spentPercentage` equals
`min 100 (totalSpent / available * 100)` when `available > 0` and `0`
otherwise (so no division by zero is ever performed); and when the total
parses to 0 and the parsed savings sum is non-negative — as the
specification's data model assumes of goal amounts — `available`,
`dailyAllowance` and `spentPercentage` are all 0. -/
theorem C6_spent_percentage (state : PlannerState) (today : ℤ) :
    ((computeLedger state today).spentPercentage
      = if (computeLedger state today).available > 0
        then min 100 ((computeLedger state today).totalSpent
          / (computeLedger state today).available * 100)
        else 0) ∧
    (jsOr0 (parseFloat? state.totalAmount) = 0 → 0 ≤ totalSavings state.savingsGoals →
      (computeLedger state today).available = 0 ∧
      (computeLedger state today).dailyAllowance = 0 ∧
      (computeLedger state today).spentPercentage = 0) := by
  have hav := computeLedger_available state today
  constructor
  · cases hs : state.startDate with
    | none =>
      rw [computeLedger_degenerate state today (Or.inl hs)]
      exact spentPercentage_formula_degenerate _
    | some s =>
      cases he : state.endDate with
      | none =>
        rw [computeLedger_degenerate state today (Or.inr (Or.inl he))]
        exact spentPercentage_formula_degenerate _
      | some e =>
        by_cases hle : s ≤ e
        · rw [computeLedger_valid_spec state today s e hs he hle]
        · rw [computeLedger_degenerate state today (Or.inr (Or.inr ⟨s, e, hs, he, by omega⟩))]
          exact spentPercentage_formula_degenerate _
  · intro h0 hts
    have hav0 : availableOf state = 0 := by
      unfold availableOf
      rw [h0]
      exact max_eq_left (by linarith)
    refine ⟨by rw [hav, hav0], ?_, ?_⟩
    · cases hs : state.startDate with
      | none => rw [computeLedger_degenerate state today (Or.inl hs)]; rfl
      | some s =>
        cases he : state.endDate with
        | none => rw [computeLedger_degenerate state today (Or.inr (Or.inl he))]; rfl
        | some e =>
          by_cases hle : s ≤ e
          · rw [computeLedger_valid_spec state today s e hs he hle]
            show availableOf state / ((e - s + 1 : ℤ) : ℚ) = 0
            rw [hav0, zero_div]
          · rw [computeLedger_degenerate state today
              (Or.inr (Or.inr ⟨s, e, hs, he, by omega⟩))]
            rfl
    · cases hs : state.startDate with
      | none => rw [computeLedger_degenerate state today (Or.inl hs)]; rfl
      | some s =>
        cases he : state.endDate with
        | none => rw [computeLedger_degenerate state today (Or.inr (Or.inl he))]; rfl
        | some e =>
          by_cases hle : s ≤ e
          · rw [computeLedger_valid_spec state today s e hs he hle]
            show (if availableOf state > 0 then _ else 0) = 0
            rw [if_neg (by rw [hav0]; norm_num)]
          · rw [computeLedger_degenerate state today
              (Or.inr (Or.inr ⟨s, e, hs, he, by omega⟩))]
            rfl

theorem C6_witness :
    jsOr0 (parseFloat? stZeroOk.totalAmount) = 0 ∧
    0 ≤ totalSavings stZeroOk.savingsGoals ∧
    ((computeLedger stZeroOk 0).available = 0 ∧
     (computeLedger stZeroOk 0).dailyAllowance = 0 ∧
     (computeLedger stZeroOk 0).spentPercentage = 0) := by
  have h0 : jsOr0 (parseFloat? stZeroOk.totalAmount) = 0 := by
    rw [show stZeroOk.totalAmount = "0" from rfl, parseFloat_nonneg_nat "0" 0 (by decide)]
    show ((0 : ℕ) : ℚ) = 0
    norm_num
  have hts : 0 ≤ totalSavings stZeroOk.savingsGoals := by
    show (0 : ℚ) ≤ totalSavings [{ id := "g1", name := "General Savings", amount := "0", category := "other" }]
    rw [totalSavings_singleton, parseFloat_nonneg_nat "0" 0 (by decide)]
    show (0 : ℚ) ≤ ((0 : ℕ) : ℚ)
    norm_num
  exact ⟨h0, hts, (C6_spent_percentage stZeroOk 0).2 h0 hts⟩

theorem C1_witness :
    (∀ d0, (computeLedger stScenB 0).days[0]? = some d0 →
      d0.allowance = (computeLedger stScenB 0).dailyAllowance) ∧
    (∀ i di dsi, (computeLedger stScenB 0).days[i]? = some di →
      (computeLedger stScenB 0).days[i + 1]? = some dsi →
      dsi.allowance = (computeLedger stScenB 0).dailyAllowance + di.remaining) ∧
    (∀ d ∈ (computeLedger stScenB 0).days, d.remaining = d.allowance - d.spent) :=
  C1_carryover_recurrence stScenB 0 0 1 rfl rfl (by decide)

theorem C2_witness :
    (stScenB.expenses (DayEntry.mk 1 500 500 0).date = none →
      (DayEntry.mk 1 500 500 0).spent = (DayEntry.mk 1 500 500 0).allowance) ∧
    (stScenB.expenses (DayEntry.mk 1 500 500 0).date = some "" →
      (DayEntry.mk 1 500 500 0).spent = (DayEntry.mk 1 500 500 0).allowance) ∧
    (∀ str, stScenB.expenses (DayEntry.mk 1 500 500 0).date = some str → str ≠ "" →
      (DayEntry.mk 1 500 500 0).spent = jsOr0 (parseFloat? str)) ∧
    (∀ str, stScenB.expenses (DayEntry.mk 1 500 500 0).date = some str → str ≠ "" →
      parseFloat? str = none → (DayEntry.mk 1 500 500 0).spent = 0) :=
  C2_default_spend_policy stScenB 0 0 1 rfl rfl (by decide) (DayEntry.mk 1 500 500 0)
    (by rw [ledger_stScenB_days]; exact List.mem_cons_of_mem _ (List.mem_cons_self _ _))

theorem C3_witness :
    (computeLedger stInvalid 0).daysCount = 0 ∧
    (computeLedger stInvalid 0).available = availableOf stInvalid ∧
    (computeLedger stInvalid 0).dailyAllowance = 0 ∧
    (computeLedger stInvalid 0).days = [] ∧
    (computeLedger stInvalid 0).isValidRange = false ∧
    (computeLedger stInvalid 0).totalSpent = 0 ∧
    (computeLedger stInvalid 0).totalRemaining = (computeLedger stInvalid 0).available ∧
    (computeLedger stInvalid 0).spentPercentage = 0 :=
  C3_degenerate_ledger stInvalid 0 (Or.inl rfl)

theorem C7_witness :
    (computeLedger stScenB 0).daysCount = 1 - 0 + 1 ∧
    ((computeLedger stScenB 0).days.length : ℤ) = (computeLedger stScenB 0).daysCount ∧
    (∀ (i : ℕ) (d : DayEntry), (computeLedger stScenB 0).days[i]? = some d →
      d.date = 0 + (i : ℤ)) :=
  C7_days_count_and_order stScenB 0 0 1 rfl rfl (by decide)

theorem C8_witness :
    (computeLedger stScenB 0).spentUpToToday
      = (((computeLedger stScenB 0).days.filter (fun d => d.date ≤ 0)).map
          DayEntry.spent).sum :=
  C8_spent_up_to_today stScenB 0 0 1 rfl rfl (by decide)

theorem C9_witness :
    (DayEntry.mk 1 20 20 0).allowance < (computeLedger stOver 0).dailyAllowance ∧
    (DayEntry.mk 1 20 20 0).allowance
      = (computeLedger stOver 0).dailyAllowance
        - ((DayEntry.mk 0 50 80 (-30)).spent - (DayEntry.mk 0 50 80 (-30)).allowance) :=
  C9_overspend_propagation stOver 0 0 1 rfl rfl (by decide) 0
    (DayEntry.mk 0 50 80 (-30)) (DayEntry.mk 1 20 20 0)
    (by rw [ledger_stOver_days]; rfl)
    (by rw [ledger_stOver_days]; rfl)
    (by norm_num)

theorem C10_witness :
    (DayEntry.mk 1 500 500 0).remaining = (computeLedger stScenB 0).totalRemaining ∧
    (computeLedger stScenB 0).totalRemaining
      = (computeLedger stScenB 0).available - (computeLedger stScenB 0).totalSpent :=
  C10_last_remaining_telescopes stScenB 0 0 1 rfl rfl (by decide)
    (DayEntry.mk 1 500 500 0)
    (by rw [ledger_stScenB_days]; rfl)
